import Mathlib

/-!
Verification of the GANime training/generation orchestrator (`GANime/gan.py`)
against its natural-language specification.

The Python module is shallowly embedded:
* tensors that matter only through their shape and device placement are a
  `Tensor` record (shape, device);
* the autograd computation graph built during one training step is an
  inductive `Node` type mirroring exactly the tensor expressions the source
  constructs, with `detach` as an explicit graph node;
* the imperative calls of `GAN.train` (zero_grad, backward, optimizer.step,
  optimizer construction, device moves, RNG sampling, logging, end-of-epoch
  visualization) are reified as an `Event` trace, and parameter / gradient
  mutation is explicit state passing over `TrainState`;
* the numeric content of the networks and of AdamW is abstracted into an
  `Autograd` record of update functions (the claims under scrutiny concern
  which parameters are read and written, and which graph each backward call
  traverses, not the numeric values);
* label tensors, whose element values the spec pins down, are concrete
  rational lists;
* `weight_init` acts on a list of layers with rational weight/bias vectors,
  with `nn.init.normal_` modelled as consuming draws from a stream of
  standard-normal samples.
-/

namespace GANime

/-! ## Devices and shape-level tensors (for `GAN.generate`) -/

/-- A compute device: `cuda` is the accelerator, `cpu` the host. -/
inductive Device where
  | cuda
  | cpu
deriving DecidableEq

/-- `torch.device("cuda" if torch.cuda.is_available() else "cpu")`:
the default device used by `GAN.train` and `GAN.generate`. -/
def defaultDevice (cudaAvailable : Bool) : Device :=
  if cudaAvailable then Device.cuda else Device.cpu

/-- A tensor, tracked through its shape and device placement.  The numeric
contents of generator outputs are irrelevant to the claims about
`GAN.generate`. -/
structure Tensor where
  shape : List Nat
  device : Device
deriving DecidableEq

/-- `torch.randn(shape, device=device)`: a fresh standard-normal tensor of
the given shape on the given device. -/
def randnT (shape : List Nat) (device : Device) : Tensor :=
  { shape := shape, device := device }

/-- `t.cpu()`: move a tensor to host memory. -/
def Tensor.cpu (t : Tensor) : Tensor :=
  { t with device := Device.cpu }

/-- `t.detach()`: same shape and device; at the shape level detaching is the
identity (its autograd effect is modelled separately by `Node.detach`). -/
def Tensor.detachT (t : Tensor) : Tensor := t

/-- Modelled from the spec: the generator and discriminator networks live in
`GANime/components.py`, which is not part of the sources under review.  The
spec's contract is that the generator is "a callable accepting a tensor and
returning a tensor" that "maps random latent vectors to images", and that a
batch of `n` latent vectors yields an image batch of `n` samples
(rank-4, batch x channel x height x width).  `imageDims` is the per-sample
image shape the architecture produces. -/
structure GenModel where
  imageDims : List Nat

/-- Modelled from the spec: applying the generator to a batched input tensor
produces an image batch with the same leading (batch) dimension, on the same
device. -/
def genForwardT (m : GenModel) (t : Tensor) : Tensor :=
  { shape := t.shape.headD 0 :: m.imageDims, device := t.device }

/-- The value returned by `GAN.generate`: the generated image batch, and the
latent batch when `return_noise` is set. -/
structure GenerateResult where
  generated : Tensor
  noiseOut : Option Tensor
deriving DecidableEq

/-- `GAN.generate(num_rows=8, num_cols=8, device=..., plot=True,
return_noise=True)`, translated line by line from the source:

```
noise = torch.randn(num_rows*num_cols, self.seed_size, 1, 1, device=device, ...)
generated = self.gen(noise).cpu().detach()
if return_noise: return generated, noise.cpu()
else: return generated
```

`seedSize` is the orchestrator's stored `self.seed_size`.  The `plot` branch
only calls the external plotter and does not affect the returned values. -/
def generate (seedSize : Nat) (m : GenModel)
    (numRows : Nat := 8) (numCols : Nat := 8)
    (device : Device := Device.cuda) (plot : Bool := true)
    (returnNoise : Bool := true) : GenerateResult :=
  let noise := randnT [numRows * numCols, seedSize, 1, 1] device
  let generated := ((genForwardT m noise).cpu).detachT
  let _plotted := plot
  if returnNoise then
    { generated := generated, noiseOut := some noise.cpu }
  else
    { generated := generated, noiseOut := none }

/-! ## `weight_init` (the WeightInitializer) -/

/-- Substring test on strings: `pat in s` of Python, via character lists. -/
def strContains (s pat : String) : Bool :=
  decide (pat.toList <:+: s.toList)

/-- One module of a model, as `weight_init` sees it: its class name
(`layer.__class__.__name__`) and its weight and bias parameter vectors. -/
structure Layer where
  className : String
  weight : List ℚ
  bias : List ℚ
deriving DecidableEq

/-- `nn.init.normal_(w, mean, std)`: refill `w` in place with draws from
N(mean, std^2).  `draws` is a stream of standard-normal samples and `k` the
position of the next unused draw; entry `i` becomes `mean + std * draws (k+i)`. -/
def normalFill (draws : Nat → ℚ) (k : Nat) (mean std : ℚ) (w : List ℚ) : List ℚ :=
  (List.range w.length).map (fun i => mean + std * draws (k + i))

/-- The body of `weight_init`'s loop for one layer, threading the RNG
position.  Source:

```
if 'Conv' in name:   nn.init.normal_(layer.weight.data, 0, 0.02)
elif 'BatchNorm' in name:
    nn.init.normal_(layer.weight.data, 1, 0.02)
    nn.init.constant_(layer.bias.data, 0)
else: continue
``` -/
def weightInitLayer (draws : Nat → ℚ) (k : Nat) (l : Layer) : Layer × Nat :=
  if strContains l.className "Conv" then
    ({ l with weight := normalFill draws k 0 (2/100) l.weight },
     k + l.weight.length)
  else if strContains l.className "BatchNorm" then
    ({ l with weight := normalFill draws k 1 (2/100) l.weight,
              bias := List.replicate l.bias.length 0 },
     k + l.weight.length)
  else
    (l, k)

/-- The loop of `weight_init` over `model.modules()`, starting at RNG
position `k`. -/
def weightInitGo (draws : Nat → ℚ) : Nat → List Layer → List Layer
  | _, [] => []
  | k, l :: ls =>
      let r := weightInitLayer draws k l
      r.1 :: weightInitGo draws r.2 ls

/-- `weight_init(model)`: visit each module once, re-initializing Conv and
BatchNorm layers. -/
def weight_init (draws : Nat → ℚ) (model : List Layer) : List Layer :=
  weightInitGo draws 0 model

/-! ## The autograd graph of one training step -/

/-- The two networks owned by the orchestrator. -/
inductive Net where
  | gen
  | dis
deriving DecidableEq

/-- A node of the autograd computation graph built during `GAN.train`.
Each constructor corresponds to one tensor-producing expression of the
source; `rid` on `randn` is the position of the call in the run's RNG
sequence, and `batch` is the real-image batch of step `i` of epoch `epoch`
(after `.to(device)`), carrying its rank-4 shape. -/
inductive Node where
  | randn (shape : List Nat) (rid : Nat)
  | batch (epoch i : Nat) (shape : List Nat)
  | genApp (input : Node)
  | disApp (input : Node)
  | detach (t : Node)
  | view (t : Node)
  | full (n : Nat) (v : ℚ)
  | bce (pred target : Node)
  | add (a b : Node)
deriving DecidableEq

/-- Whether a backward pass from this node reaches generator parameters:
true exactly when the node's history contains a generator application not cut
off by `detach`. -/
def dependsOnGen : Node → Bool
  | Node.randn _ _ => false
  | Node.batch _ _ _ => false
  | Node.genApp _ => true
  | Node.disApp t => dependsOnGen t
  | Node.detach _ => false
  | Node.view t => dependsOnGen t
  | Node.full _ _ => false
  | Node.bce p t => dependsOnGen p || dependsOnGen t
  | Node.add a b => dependsOnGen a || dependsOnGen b

/-- Whether a backward pass from this node reaches discriminator
parameters. -/
def dependsOnDis : Node → Bool
  | Node.randn _ _ => false
  | Node.batch _ _ _ => false
  | Node.genApp t => dependsOnDis t
  | Node.disApp _ => true
  | Node.detach _ => false
  | Node.view t => dependsOnDis t
  | Node.full _ _ => false
  | Node.bce p t => dependsOnDis p || dependsOnDis t
  | Node.add a b => dependsOnDis a || dependsOnDis b

/-- The imperative calls `GAN.train` issues, in program order. -/
inductive Event where
  | mkOptimizer (n : Net)
  | toDevice (n : Net)
  | sample (nd : Node)
  | zeroGrad (n : Net)
  | genForward (input output : Node)
  | disForward (input output : Node)
  | backward (l : Node)
  | optStep (n : Net)
  | log (epoch i : Nat) (disLoss genLoss : Node)
  | noGradGenForward (input output : Node)
  | visualize (nd : Node)
deriving DecidableEq

/-- Is this event a (graph-recording) generator forward call? -/
def Event.isGenForward : Event → Bool
  | Event.genForward _ _ => true
  | _ => false

/-- Is this event a backward call? -/
def Event.isBackward : Event → Bool
  | Event.backward _ => true
  | _ => false

/-- Is this event a log line? -/
def Event.isLogLine : Event → Bool
  | Event.log _ _ _ _ => true
  | _ => false

/-- Is this event a generator forward under `torch.no_grad()`? -/
def Event.isNoGradGenForward : Event → Bool
  | Event.noGradGenForward _ _ => true
  | _ => false

/-- Is this event a hand-off to the plotter? -/
def Event.isVisualize : Event → Bool
  | Event.visualize _ => true
  | _ => false

/-- Mutable training state: the two parameter vectors, their gradient
accumulators, and the two AdamW optimizers' internal moment state. -/
structure TrainState (P G O : Type) where
  genP : P
  disP : P
  genG : G
  disG : G
  genO : O
  disO : O

/-- The numeric content of backpropagation and of the AdamW update,
abstracted: `accGen genP disP g l` is the gradient accumulator after adding
d`l`/d(generator parameters) to `g` (and likewise `accDis`), `gzero` a
cleared accumulator, and `stepGen p g o` the AdamW update of parameters `p`
from gradients `g` with moment state `o`.  The claims concern which state an
operation reads and writes, not these values. -/
structure Autograd (P G O : Type) where
  gzero : G
  accGen : P → P → G → Node → G
  accDis : P → P → G → Node → G
  stepGen : P → G → O → P × O
  stepDis : P → G → O → P × O

variable {P G O : Type}

/-- `loss.backward()`: accumulate the loss's gradient into the gradient
buffers of exactly the networks its graph reaches. -/
def applyBackward (A : Autograd P G O) (l : Node) (s : TrainState P G O) :
    TrainState P G O :=
  { s with
    genG := if dependsOnGen l then A.accGen s.genP s.disP s.genG l else s.genG,
    disG := if dependsOnDis l then A.accDis s.genP s.disP s.disG l else s.disG }

/-- `optimizer.step()`: the optimizer built over `self.gen.parameters()`
(resp. `self.dis.parameters()`) updates that network's parameters and its own
moment state from that network's gradient buffer. -/
def applyOptStep (A : Autograd P G O) : Net → TrainState P G O → TrainState P G O
  | Net.gen, s =>
      let r := A.stepGen s.genP s.genG s.genO
      { s with genP := r.1, genO := r.2 }
  | Net.dis, s =>
      let r := A.stepDis s.disP s.disG s.disO
      { s with disP := r.1, disO := r.2 }

/-- The tensors named in the discriminator phase of one step (source
variable names kept). -/
structure DisRecord where
  noise : Node
  fake_img : Node
  real_img : Node
  fake_dis_pred : Node
  real_dis_pred : Node
  fake_dis_lbl : Node
  real_dis_lbl : Node
  fake_dis_loss : Node
  real_dis_loss : Node
  dis_loss : Node
  fakeLblVals : List ℚ
  realLblVals : List ℚ
deriving DecidableEq

/-- The tensors named in the generator phase of one step. -/
structure GenRecord where
  fake_gen_pred : Node
  gen_loss : Node
deriving DecidableEq

/-- Result of one phase / one step: new state, next RNG position, the event
trace, and the named tensors. -/
structure DisPhaseResult (P G O : Type) where
  state : TrainState P G O
  rid : Nat
  trace : List Event
  record : DisRecord

/-- Steps 1-9 of the per-step algorithm (the discriminator update), one
line of Lean per line of source:

```
self.dis.zero_grad()
noise = torch.randn(b, self.seed_size, 1, 1, device=device, ...)
fake_img = self.gen(noise)
real_img = data.to(device)
fake_dis_pred = self.dis(fake_img.detach())
real_dis_pred = self.dis(real_img)
fake_dis_lbl = torch.full((b,), 0.1, ...)
real_dis_lbl = torch.full((b,), 0.9, ...)
fake_dis_loss = loss(fake_dis_pred.view(-1), fake_dis_lbl)
real_dis_loss = loss(real_dis_pred.view(-1), real_dis_lbl)
real_dis_loss.backward()
fake_dis_loss.backward()
dis_loss = fake_dis_loss + real_dis_loss
dis_optimizer.step()
```

`data` is the yielded batch's shape and `b = data.shape[0]` its sample
count. -/
def disPhase (A : Autograd P G O) (seedSize epoch i rid : Nat)
    (data : List Nat) (s : TrainState P G O) : DisPhaseResult P G O :=
  let b := data.headD 0
  let s := { s with disG := A.gzero }
  let noise := Node.randn [b, seedSize, 1, 1] rid
  let fake_img := Node.genApp noise
  let real_img := Node.batch epoch i data
  let fake_dis_pred := Node.disApp (Node.detach fake_img)
  let real_dis_pred := Node.disApp real_img
  let fake_dis_lbl := Node.full b (1/10)
  let real_dis_lbl := Node.full b (9/10)
  let fake_dis_loss := Node.bce (Node.view fake_dis_pred) fake_dis_lbl
  let real_dis_loss := Node.bce (Node.view real_dis_pred) real_dis_lbl
  let s := applyBackward A real_dis_loss s
  let s := applyBackward A fake_dis_loss s
  let dis_loss := Node.add fake_dis_loss real_dis_loss
  let s := applyOptStep A Net.dis s
  { state := s
    rid := rid + 1
    trace := [Event.zeroGrad Net.dis, Event.sample noise,
              Event.genForward noise fake_img,
              Event.disForward (Node.detach fake_img) fake_dis_pred,
              Event.disForward real_img real_dis_pred,
              Event.backward real_dis_loss, Event.backward fake_dis_loss,
              Event.optStep Net.dis]
    record := { noise := noise, fake_img := fake_img, real_img := real_img,
                fake_dis_pred := fake_dis_pred, real_dis_pred := real_dis_pred,
                fake_dis_lbl := fake_dis_lbl, real_dis_lbl := real_dis_lbl,
                fake_dis_loss := fake_dis_loss, real_dis_loss := real_dis_loss,
                dis_loss := dis_loss,
                fakeLblVals := List.replicate b (1/10),
                realLblVals := List.replicate b (9/10) } }

/-- Result of the generator phase. -/
structure GenPhaseResult (P G O : Type) where
  state : TrainState P G O
  trace : List Event
  record : GenRecord

/-- Steps 10-13 (the generator update):

```
self.gen.zero_grad()
fake_gen_pred = self.dis(fake_img)
gen_loss = loss(fake_gen_pred.view(-1), real_dis_lbl)
gen_loss.backward()
gen_optimizer.step()
```

`d` is the record of tensors produced by the discriminator phase; step 1 of
this phase is "already done (using fake_img)". -/
def genPhase (A : Autograd P G O) (d : DisRecord) (s : TrainState P G O) :
    GenPhaseResult P G O :=
  let s := { s with genG := A.gzero }
  let fake_gen_pred := Node.disApp d.fake_img
  let gen_loss := Node.bce (Node.view fake_gen_pred) d.real_dis_lbl
  let s := applyBackward A gen_loss s
  let s := applyOptStep A Net.gen s
  { state := s
    trace := [Event.zeroGrad Net.gen,
              Event.disForward d.fake_img fake_gen_pred,
              Event.backward gen_loss, Event.optStep Net.gen]
    record := { fake_gen_pred := fake_gen_pred, gen_loss := gen_loss } }

/-- Result of one full training step. -/
structure StepResult (P G O : Type) where
  state : TrainState P G O
  rid : Nat
  trace : List Event
  recordD : DisRecord
  recordG : GenRecord

/-- One iteration of the inner loop of `GAN.train` on the yielded batch
`data` (its shape list): discriminator phase, generator phase, then the
logging of `dis_loss` and `gen_loss` every `printLossEvery`-th step. -/
def trainStep (A : Autograd P G O) (seedSize printLossEvery epoch i rid : Nat)
    (data : List Nat) (s : TrainState P G O) : StepResult P G O :=
  let rd := disPhase A seedSize epoch i rid data s
  let rg := genPhase A rd.record rd.state
  let logTrace :=
    if i % printLossEvery == 0 then
      [Event.log epoch i rd.record.dis_loss rg.record.gen_loss]
    else []
  { state := rg.state
    rid := rd.rid
    trace := rd.trace ++ rg.trace ++ logTrace
    recordD := rd.record
    recordG := rg.record }

/-! ## The full `GAN.train` procedure -/

/-- The argument passed as `dl`: either a genuine
`torch.utils.data.dataloader.DataLoader` (yielding, per epoch, the listed
batches, each given by its rank-4 shape), or any other Python object (whose
description is irrelevant, only that its type is not `DataLoader`). -/
inductive BatchSource where
  | dataLoader (batches : List (List Nat))
  | notDataLoader (descr : String)

/-- The inner `for i, data in enumerate(dl)` loop of one epoch, starting at
step index `i` and RNG position `rid`. -/
def runBatches (A : Autograd P G O) (seedSize printLossEvery epoch : Nat) :
    Nat → Nat → List (List Nat) → TrainState P G O →
    TrainState P G O × Nat × List Event
  | _, rid, [], s => (s, rid, [])
  | i, rid, data :: rest, s =>
      let r := trainStep A seedSize printLossEvery epoch i rid data s
      let rr := runBatches A seedSize printLossEvery epoch (i + 1) r.rid rest r.state
      (rr.1, rr.2.1, r.trace ++ rr.2.2)

/-- The outer `for epoch in range(num_epochs)` loop: run all batches, then,
when plotting, run the generator on the fixed seed without gradient tracking
and hand the result to the plotter.  `fixed` is `fixed_seed` when `plot` is
set (it only exists in that case), `epochsLeft` the number of epochs still to
run, `epoch` the current epoch index. -/
def runEpochs (A : Autograd P G O) (seedSize printLossEvery : Nat)
    (batches : List (List Nat)) (fixed : Option Node) :
    Nat → Nat → Nat → TrainState P G O → TrainState P G O × Nat × List Event
  | 0, _, rid, s => (s, rid, [])
  | epochsLeft + 1, epoch, rid, s =>
      let r := runBatches A seedSize printLossEvery epoch 0 rid batches s
      let vizTrace :=
        match fixed with
        | some f => [Event.noGradGenForward f (Node.genApp f),
                     Event.visualize (Node.genApp f)]
        | none => []
      let rr := runEpochs A seedSize printLossEvery batches fixed
                  epochsLeft (epoch + 1) r.2.1 r.1
      (rr.1, rr.2.1, r.2.2 ++ vizTrace ++ rr.2.2)

/-- Result of `GAN.train`: whether the call succeeded or raised, the final
training state, and the trace of issued calls.  When the `DataLoader`
assertion fails the procedure raises before doing anything, so the state is
returned untouched and the trace is empty. -/
structure TrainResult (P G O : Type) where
  outcome : Except String Unit
  state : TrainState P G O
  trace : List Event

/-- `GAN.train(dl, num_epochs=100, batch_size=128, device=..., plot=True)`.
The body, in source order: the `DataLoader` type assertion; construction of
the BCE loss and of the two AdamW optimizers (the generator's first); moving
the discriminator, then the generator, to the device; when plotting, sampling
the fixed seed `torch.randn(64, self.seed_size, 1, 1, ...)` once; then the
epoch loop.  `batchSize` is the `batch_size` argument; the per-step sample
count is read from each yielded batch inside `disPhase`. -/
def train (A : Autograd P G O) (seedSize printLossEvery : Nat)
    (s : TrainState P G O) (dl : BatchSource) (numEpochs : Nat := 100)
    (batchSize : Nat := 128) (device : Device := Device.cuda)
    (plot : Bool := true) : TrainResult P G O :=
  match dl with
  | BatchSource.notDataLoader _ =>
      { outcome := Except.error "Require PyTorch's DataLoader for your dataloader"
        state := s
        trace := [] }
  | BatchSource.dataLoader batches =>
      let setupTrace := [Event.mkOptimizer Net.gen, Event.mkOptimizer Net.dis,
                         Event.toDevice Net.dis, Event.toDevice Net.gen]
      let fixed := if plot then some (Node.randn [64, seedSize, 1, 1] 0) else none
      let sampleTrace :=
        match fixed with
        | some f => [Event.sample f]
        | none => []
      let rid0 := if plot then 1 else 0
      let r := runEpochs A seedSize printLossEvery batches fixed numEpochs 0 rid0 s
      { outcome := Except.ok ()
        state := r.1
        trace := setupTrace ++ sampleTrace ++ r.2.2 }

/-! ## Lemmas about `weight_init` -/

/-- The value part of one loop iteration, with the RNG threading projected
away: the three-way dispatch on the class name. -/
theorem weightInitLayer_fst (draws : Nat → ℚ) (k : Nat) (l : Layer) :
    (weightInitLayer draws k l).1 =
      if strContains l.className "Conv" then
        { l with weight := normalFill draws k 0 (2/100) l.weight }
      else if strContains l.className "BatchNorm" then
        { l with weight := normalFill draws k 1 (2/100) l.weight,
                 bias := List.replicate l.bias.length 0 }
      else l := by
  unfold weightInitLayer
  split
  · rfl
  · split <;> rfl

theorem weightInitGo_length (draws : Nat → ℚ) :
    ∀ (k : Nat) (ls : List Layer), (weightInitGo draws k ls).length = ls.length := by
  intro k ls
  induction ls generalizing k with
  | nil => rfl
  | cons l rest ih => simp [weightInitGo, ih]

theorem weightInitGo_get? (draws : Nat → ℚ) :
    ∀ (ls : List Layer) (k i : Nat) (l : Layer), ls[i]? = some l →
      ∃ k2, (weightInitGo draws k ls)[i]? = some (weightInitLayer draws k2 l).1 := by
  intro ls
  induction ls with
  | nil => intro k i l h; simp at h
  | cons l0 rest ih =>
      intro k i l h
      cases i with
      | zero =>
          simp at h
          exact ⟨k, by simp [weightInitGo, h]⟩
      | succ j =>
          simp at h
          obtain ⟨k2, hk2⟩ := ih (weightInitLayer draws k l0).2 j l h
          exact ⟨k2, by simpa [weightInitGo] using hk2⟩

/-! ## Claim theorems: WeightInitializer and generation -/

/-- C4 counterexample: the claim quantifies separately over layers whose
type name contains "Conv" and layers whose type name contains "BatchNorm",
but the source dispatches with `elif`, so a layer whose class name contains
both substrings takes only the Conv branch and its bias is NOT reset to 0.
Concretely, a layer named "ConvBatchNorm2d" with bias [7] keeps bias [7]. -/
theorem weight_init_C4_counterexample :
    ¬ (∀ l ∈ weight_init (fun _ => 0)
          [{ className := "ConvBatchNorm2d", weight := [5], bias := [7] }],
        strContains l.className "BatchNorm" = true →
          l.bias = List.replicate l.bias.length 0) := by
  intro h
  have h1 : strContains "ConvBatchNorm2d" "Conv" = true := by decide
  have hcomp : weight_init (fun _ => 0)
      [{ className := "ConvBatchNorm2d", weight := [5], bias := [7] }] =
      [{ className := "ConvBatchNorm2d",
         weight := normalFill (fun _ => 0) 0 0 (2/100) [5], bias := [7] }] := by
    show weightInitGo (fun _ => 0) 0 _ = _
    simp only [weightInitGo, weightInitLayer_fst, h1, if_true]
  have h7 := h { className := "ConvBatchNorm2d",
                 weight := normalFill (fun _ => 0) 0 0 (2/100) [5], bias := [7] }
    (by rw [hcomp]; exact List.mem_singleton.mpr rfl) (by decide)
  simp at h7

/-- C4 (amended): `weight_init` visits every layer exactly once (the output
has one layer per input layer, positionwise); a layer whose type name
contains "Conv" gets its weight refilled from N(0, 0.02^2) (bias untouched);
a layer whose type name does NOT contain "Conv" but contains "BatchNorm"
gets its weight refilled from N(1, 0.02^2) and its bias set to exactly 0;
every other layer is left unchanged. -/
theorem weight_init_C4 (draws : Nat → ℚ) (model : List Layer) :
    (weight_init draws model).length = model.length ∧
    ∀ (i : Nat) (l : Layer), model[i]? = some l → ∃ k,
      (weight_init draws model)[i]? = some
        (if strContains l.className "Conv" then
          { l with weight := normalFill draws k 0 (2/100) l.weight }
        else if strContains l.className "BatchNorm" then
          { l with weight := normalFill draws k 1 (2/100) l.weight,
                   bias := List.replicate l.bias.length 0 }
        else l) := by
  constructor
  · exact weightInitGo_length draws 0 model
  · intro i l h
    obtain ⟨k2, hk2⟩ := weightInitGo_get? draws model 0 i l h
    exact ⟨k2, by unfold weight_init; rw [hk2, weightInitLayer_fst]⟩

/-- C4 witness: on a one-layer model whose class name is "Conv2d", the
amended theorem applies and the layer's weight is refilled. -/
theorem weight_init_C4_witness :
    ([{ className := "Conv2d", weight := [5], bias := [7] }] : List Layer)[0]? =
        some { className := "Conv2d", weight := [5], bias := [7] } ∧
      (weight_init (fun _ => 0)
          [{ className := "Conv2d", weight := [5], bias := [7] }]).length = 1 ∧
      ∃ k, (weight_init (fun _ => 0)
          [{ className := "Conv2d", weight := [5], bias := [7] }])[0]? = some
        (if strContains "Conv2d" "Conv" then
          { className := "Conv2d",
            weight := normalFill (fun _ => 0) k 0 (2/100) [5], bias := [7] }
        else if strContains "Conv2d" "BatchNorm" then
          { className := "Conv2d",
            weight := normalFill (fun _ => 0) k 1 (2/100) [5],
            bias := List.replicate 1 0 }
        else { className := "Conv2d", weight := [5], bias := [7] }) := by
  refine ⟨by decide, ?_, ?_⟩
  · exact (weight_init_C4 (fun _ => 0)
      [{ className := "Conv2d", weight := [5], bias := [7] }]).1
  · exact (weight_init_C4 (fun _ => 0)
      [{ className := "Conv2d", weight := [5], bias := [7] }]).2 0
      { className := "Conv2d", weight := [5], bias := [7] } (by decide)

/-- C8: for positive `numRows` and `numCols`, `GAN.generate` samples a fresh
latent batch of `numRows*numCols` vectors of the stored latent
dimensionality (shape `[rows*cols, seedSize, 1, 1]`), the generated batch
has `numRows*numCols` samples and is produced by the generator from exactly
that latent batch, and with the return-latents flag set the call returns
both batches, while with it clear only the generated batch is returned. -/
theorem generate_C8 (m : GenModel) (seedSize numRows numCols : Nat)
    (dev : Device) (plot : Bool) (hr : 0 < numRows) (hc : 0 < numCols) :
    ∃ noise : Tensor,
      noise.shape = [numRows * numCols, seedSize, 1, 1] ∧
      (generate seedSize m numRows numCols dev plot true).noiseOut =
        some noise.cpu ∧
      (generate seedSize m numRows numCols dev plot true).generated =
        ((genForwardT m noise).cpu).detachT ∧
      (generate seedSize m numRows numCols dev plot true).generated.shape =
        (numRows * numCols) :: m.imageDims ∧
      (generate seedSize m numRows numCols dev plot false) =
        { generated := (generate seedSize m numRows numCols dev plot true).generated,
          noiseOut := none } := by
  exact ⟨randnT [numRows * numCols, seedSize, 1, 1] dev,
    rfl, rfl, rfl, rfl, rfl⟩

/-- C8 witness: `rows=2, cols=3, return_latents=true` yields an image batch
of 6 samples and a latent batch of 6 vectors of the declared latent
dimensionality (here 128). -/
theorem generate_C8_witness :
    0 < 2 ∧ 0 < 3 ∧
    ∃ noise : Tensor,
      noise.shape = [6, 128, 1, 1] ∧
      (generate 128 ⟨[3, 64, 64]⟩ 2 3 Device.cuda true true).noiseOut =
        some noise.cpu ∧
      (generate 128 ⟨[3, 64, 64]⟩ 2 3 Device.cuda true true).generated =
        ((genForwardT ⟨[3, 64, 64]⟩ noise).cpu).detachT ∧
      (generate 128 ⟨[3, 64, 64]⟩ 2 3 Device.cuda true true).generated.shape =
        6 :: [3, 64, 64] ∧
      (generate 128 ⟨[3, 64, 64]⟩ 2 3 Device.cuda true false) =
        { generated := (generate 128 ⟨[3, 64, 64]⟩ 2 3 Device.cuda true true).generated,
          noiseOut := none } :=
  ⟨by decide, by decide,
    generate_C8 ⟨[3, 64, 64]⟩ 128 2 3 Device.cuda true (by decide) (by decide)⟩

/-- C10: the return-latents flag defaults to true (a call that leaves it
unspecified equals the call with it set, hence returns a pair); the returned
latent tensor keeps the trailing unit spatial dimensions, having shape
`[rows*cols, seedSize, 1, 1]`; and both returned tensors have been moved to
host memory. -/
theorem generate_C10 (m : GenModel) (seedSize numRows numCols : Nat)
    (dev : Device) (plot : Bool) :
    generate seedSize m numRows numCols dev plot =
      generate seedSize m numRows numCols dev plot true ∧
    ∃ nt : Tensor,
      (generate seedSize m numRows numCols dev plot true).noiseOut = some nt ∧
      nt.shape = [numRows * numCols, seedSize, 1, 1] ∧
      nt.device = Device.cpu ∧
      (generate seedSize m numRows numCols dev plot true).generated.device =
        Device.cpu := by
  exact ⟨rfl, (randnT [numRows * numCols, seedSize, 1, 1] dev).cpu,
    rfl, rfl, rfl, rfl⟩

/-! ## Claim theorems: the training step -/

/-- A degenerate `Autograd` instance over trivial parameter/gradient types,
used to instantiate the step semantics at concrete inputs. -/
def unitAutograd : Autograd Unit Unit Unit where
  gzero := ()
  accGen := fun _ _ _ _ => ()
  accDis := fun _ _ _ _ => ()
  stepGen := fun _ _ _ => ((), ())
  stepDis := fun _ _ _ => ((), ())

/-- The trivial training state over trivial parameter types. -/
def unitState : TrainState Unit Unit Unit :=
  { genP := (), disP := (), genG := (), disG := (), genO := (), disO := () }

/-- C1: the discriminator update phase (steps 1-9: clearing discriminator
gradients, the two backward passes, the discriminator optimizer step) leaves
the generator parameters unchanged; the full step's generator parameters are
exactly those produced by the generator update phase (steps 10-13); the
generator phase leaves the discriminator parameters unchanged; and each
optimizer's step never mutates the other network's parameters. -/
theorem train_C1 (A : Autograd P G O) (seedSize ple epoch i rid : Nat)
    (data : List Nat) (s : TrainState P G O) :
    (disPhase A seedSize epoch i rid data s).state.genP = s.genP ∧
    (trainStep A seedSize ple epoch i rid data s).state.genP =
      (genPhase A (disPhase A seedSize epoch i rid data s).record
        (disPhase A seedSize epoch i rid data s).state).state.genP ∧
    (genPhase A (disPhase A seedSize epoch i rid data s).record
        (disPhase A seedSize epoch i rid data s).state).state.disP =
      (disPhase A seedSize epoch i rid data s).state.disP ∧
    (∀ s' : TrainState P G O,
      (applyOptStep A Net.dis s').genP = s'.genP ∧
      (applyOptStep A Net.gen s').disP = s'.disP) :=
  ⟨rfl, rfl, rfl, fun _ => ⟨rfl, rfl⟩⟩

/-- C2: in one training step, the only graph-recording generator forward
call is the one of step 3, producing `fake_img` from `noise`; and the tensor
the discriminator classifies in the generator update (step 11) is that very
same `fake_img` node, not detached and not regenerated. -/
theorem train_C2 (A : Autograd P G O) (seedSize ple epoch i rid : Nat)
    (data : List Nat) (s : TrainState P G O) :
    (trainStep A seedSize ple epoch i rid data s).trace.filter Event.isGenForward =
      [Event.genForward (trainStep A seedSize ple epoch i rid data s).recordD.noise
        (trainStep A seedSize ple epoch i rid data s).recordD.fake_img] ∧
    (trainStep A seedSize ple epoch i rid data s).recordD.fake_img =
      Node.genApp (trainStep A seedSize ple epoch i rid data s).recordD.noise ∧
    (trainStep A seedSize ple epoch i rid data s).recordG.fake_gen_pred =
      Node.disApp (trainStep A seedSize ple epoch i rid data s).recordD.fake_img := by
  refine ⟨?_, rfl, rfl⟩
  show List.filter _ (_ ++ _ ++ _) = _
  cases h : i % ple == 0 <;>
    simp [trainStep, disPhase, genPhase, h, Event.isGenForward]

/-- C3: one step issues exactly three backward calls — the real-image
discriminator loss, the fake-image discriminator loss (accumulating both
gradients into the discriminator's buffer, which was cleared at the start of
the phase), and the generator loss; the summed scalar `dis_loss` is the sum
of the two discriminator losses, is never the argument of any backward call,
and appears only in the reported log line. -/
theorem train_C3 (A : Autograd P G O) (seedSize ple epoch i rid : Nat)
    (data : List Nat) (s : TrainState P G O) :
    (trainStep A seedSize ple epoch i rid data s).trace.filter Event.isBackward =
      [Event.backward (trainStep A seedSize ple epoch i rid data s).recordD.real_dis_loss,
       Event.backward (trainStep A seedSize ple epoch i rid data s).recordD.fake_dis_loss,
       Event.backward (trainStep A seedSize ple epoch i rid data s).recordG.gen_loss] ∧
    (trainStep A seedSize ple epoch i rid data s).recordD.dis_loss =
      Node.add (trainStep A seedSize ple epoch i rid data s).recordD.fake_dis_loss
        (trainStep A seedSize ple epoch i rid data s).recordD.real_dis_loss ∧
    (∀ e ∈ (trainStep A seedSize ple epoch i rid data s).trace,
      e ≠ Event.backward (trainStep A seedSize ple epoch i rid data s).recordD.dis_loss) ∧
    (disPhase A seedSize epoch i rid data s).state.disG =
      A.accDis s.genP s.disP
        (A.accDis s.genP s.disP A.gzero
          (disPhase A seedSize epoch i rid data s).record.real_dis_loss)
        (disPhase A seedSize epoch i rid data s).record.fake_dis_loss ∧
    (trainStep A seedSize ple epoch i rid data s).trace.filter Event.isLogLine =
      (if i % ple == 0 then
        [Event.log epoch i (trainStep A seedSize ple epoch i rid data s).recordD.dis_loss
          (trainStep A seedSize ple epoch i rid data s).recordG.gen_loss]
       else []) := by
  have hfil : (trainStep A seedSize ple epoch i rid data s).trace.filter
      Event.isBackward =
      [Event.backward (trainStep A seedSize ple epoch i rid data s).recordD.real_dis_loss,
       Event.backward (trainStep A seedSize ple epoch i rid data s).recordD.fake_dis_loss,
       Event.backward (trainStep A seedSize ple epoch i rid data s).recordG.gen_loss] := by
    show List.filter _ (_ ++ _ ++ _) = _
    cases h : i % ple == 0 <;>
      simp [trainStep, disPhase, genPhase, h, Event.isBackward]
  refine ⟨hfil, rfl, ?_, ?_, ?_⟩
  · intro e he heq
    have hmem : Event.backward
        (trainStep A seedSize ple epoch i rid data s).recordD.dis_loss ∈
        (trainStep A seedSize ple epoch i rid data s).trace.filter
          Event.isBackward :=
      List.mem_filter.mpr ⟨heq ▸ he, rfl⟩
    rw [hfil] at hmem
    simp [trainStep, disPhase, genPhase] at hmem
  · simp [disPhase, applyBackward, applyOptStep, dependsOnGen, dependsOnDis]
  · show List.filter _ (_ ++ _ ++ _) = _
    cases h : i % ple == 0 <;>
      simp [trainStep, disPhase, genPhase, h, Event.isLogLine]

/-- C3 witness: the backward-call discipline of one step, instantiated on a
concrete step (batch of shape 4x3x8x8, trivial parameter types). -/
theorem train_C3_witness :
    (trainStep unitAutograd 128 25 0 0 1 [4, 3, 8, 8] unitState).trace.filter
        Event.isBackward =
      [Event.backward (trainStep unitAutograd 128 25 0 0 1 [4, 3, 8, 8]
          unitState).recordD.real_dis_loss,
       Event.backward (trainStep unitAutograd 128 25 0 0 1 [4, 3, 8, 8]
          unitState).recordD.fake_dis_loss,
       Event.backward (trainStep unitAutograd 128 25 0 0 1 [4, 3, 8, 8]
          unitState).recordG.gen_loss] ∧
    (trainStep unitAutograd 128 25 0 0 1 [4, 3, 8, 8] unitState).recordD.dis_loss =
      Node.add (trainStep unitAutograd 128 25 0 0 1 [4, 3, 8, 8]
          unitState).recordD.fake_dis_loss
        (trainStep unitAutograd 128 25 0 0 1 [4, 3, 8, 8]
          unitState).recordD.real_dis_loss ∧
    (∀ e ∈ (trainStep unitAutograd 128 25 0 0 1 [4, 3, 8, 8] unitState).trace,
      e ≠ Event.backward (trainStep unitAutograd 128 25 0 0 1 [4, 3, 8, 8]
        unitState).recordD.dis_loss) ∧
    (disPhase unitAutograd 128 0 0 1 [4, 3, 8, 8] unitState).state.disG =
      unitAutograd.accDis unitState.genP unitState.disP
        (unitAutograd.accDis unitState.genP unitState.disP unitAutograd.gzero
          (disPhase unitAutograd 128 0 0 1 [4, 3, 8, 8]
            unitState).record.real_dis_loss)
        (disPhase unitAutograd 128 0 0 1 [4, 3, 8, 8]
          unitState).record.fake_dis_loss ∧
    (trainStep unitAutograd 128 25 0 0 1 [4, 3, 8, 8] unitState).trace.filter
        Event.isLogLine =
      (if 0 % 25 == 0 then
        [Event.log 0 0 (trainStep unitAutograd 128 25 0 0 1 [4, 3, 8, 8]
            unitState).recordD.dis_loss
          (trainStep unitAutograd 128 25 0 0 1 [4, 3, 8, 8]
            unitState).recordG.gen_loss]
       else []) :=
  train_C3 unitAutograd 128 25 0 0 1 [4, 3, 8, 8] unitState

/-- C6: for a yielded batch whose sample count (leading shape entry) is `B`,
the step's fake-label tensor is exactly `B` copies of 0.1 and its real-label
tensor exactly `B` copies of 0.9, both built from the batch's own leading
dimension. -/
theorem train_C6 (A : Autograd P G O) (seedSize ple epoch i rid : Nat)
    (data : List Nat) (s : TrainState P G O) (B : Nat)
    (h : data.head? = some B) :
    (trainStep A seedSize ple epoch i rid data s).recordD.fakeLblVals =
      List.replicate B (1/10) ∧
    (trainStep A seedSize ple epoch i rid data s).recordD.realLblVals =
      List.replicate B (9/10) ∧
    (trainStep A seedSize ple epoch i rid data s).recordD.fake_dis_lbl =
      Node.full B (1/10) ∧
    (trainStep A seedSize ple epoch i rid data s).recordD.real_dis_lbl =
      Node.full B (9/10) := by
  cases data with
  | nil => simp at h
  | cons a t =>
      simp at h
      subst h
      exact ⟨rfl, rfl, rfl, rfl⟩

/-- C6 witness: a batch of shape 4x3x8x8 yields label tensors of four 0.1's
and four 0.9's. -/
theorem train_C6_witness :
    ([4, 3, 8, 8] : List Nat).head? = some 4 ∧
    ((trainStep unitAutograd 128 25 0 0 1 [4, 3, 8, 8] unitState).recordD.fakeLblVals =
      List.replicate 4 (1/10) ∧
    (trainStep unitAutograd 128 25 0 0 1 [4, 3, 8, 8] unitState).recordD.realLblVals =
      List.replicate 4 (9/10) ∧
    (trainStep unitAutograd 128 25 0 0 1 [4, 3, 8, 8] unitState).recordD.fake_dis_lbl =
      Node.full 4 (1/10) ∧
    (trainStep unitAutograd 128 25 0 0 1 [4, 3, 8, 8] unitState).recordD.real_dis_lbl =
      Node.full 4 (9/10)) :=
  ⟨rfl, train_C6 unitAutograd 128 25 0 0 1 [4, 3, 8, 8] unitState 4 rfl⟩

/-- C7: called on anything that is not a PyTorch `DataLoader`, `GAN.train`
fails at once with the assertion's message; the training state is returned
untouched and the event trace is empty — no optimizer is created, no network
is moved to a device, and no training step runs. -/
theorem train_C7 (A : Autograd P G O) (seedSize ple : Nat)
    (s : TrainState P G O) (d : String) (numEpochs batchSize : Nat)
    (device : Device) (plot : Bool) :
    train A seedSize ple s (BatchSource.notDataLoader d) numEpochs batchSize
        device plot =
      { outcome := Except.error "Require PyTorch's DataLoader for your dataloader",
        state := s, trace := [] } :=
  rfl

/-! ## Lemmas about the epoch loop (for the fixed visualization seed) -/

theorem trainStep_rid (A : Autograd P G O) (seedSize ple epoch i rid : Nat)
    (data : List Nat) (s : TrainState P G O) :
    (trainStep A seedSize ple epoch i rid data s).rid = rid + 1 :=
  rfl

theorem trainStep_sample_rid (A : Autograd P G O)
    (seedSize ple epoch i rid : Nat) (data : List Nat) (s : TrainState P G O)
    (sh : List Nat) (r : Nat)
    (h : Event.sample (Node.randn sh r) ∈
      (trainStep A seedSize ple epoch i rid data s).trace) :
    r = rid := by
  cases hc : i % ple == 0 <;>
    · simp [trainStep, disPhase, genPhase, hc] at h
      exact h.2

theorem trainStep_no_viz (A : Autograd P G O)
    (seedSize ple epoch i rid : Nat) (data : List Nat) (s : TrainState P G O) :
    (trainStep A seedSize ple epoch i rid data s).trace.filter
        Event.isVisualize = [] ∧
    (trainStep A seedSize ple epoch i rid data s).trace.filter
        Event.isNoGradGenForward = [] := by
  constructor <;>
    · show List.filter _ (_ ++ _ ++ _) = _
      cases hc : i % ple == 0 <;>
        simp [trainStep, disPhase, genPhase, hc, Event.isVisualize,
          Event.isNoGradGenForward]

theorem runBatches_rid_le (A : Autograd P G O) (seedSize ple epoch : Nat) :
    ∀ (batches : List (List Nat)) (i rid : Nat) (s : TrainState P G O),
      rid ≤ (runBatches A seedSize ple epoch i rid batches s).2.1 := by
  intro batches
  induction batches with
  | nil => intro i rid s; exact Nat.le_refl rid
  | cons data rest ih =>
      intro i rid s
      have h := ih (i + 1) (rid + 1)
        (trainStep A seedSize ple epoch i rid data s).state
      exact Nat.le_trans (Nat.le_succ rid) (by simpa [runBatches] using h)

theorem runBatches_sample_rid (A : Autograd P G O) (seedSize ple epoch : Nat) :
    ∀ (batches : List (List Nat)) (i rid : Nat) (s : TrainState P G O)
      (sh : List Nat) (r : Nat),
      Event.sample (Node.randn sh r) ∈
        (runBatches A seedSize ple epoch i rid batches s).2.2 →
      rid ≤ r := by
  intro batches
  induction batches with
  | nil => intro i rid s sh r h; simp [runBatches] at h
  | cons data rest ih =>
      intro i rid s sh r h
      rw [runBatches, List.mem_append] at h
      rcases h with h | h
      · exact Nat.le_of_eq (trainStep_sample_rid A seedSize ple epoch i rid
          data s sh r h).symm
      · exact Nat.le_trans (Nat.le_succ rid)
          (ih (i + 1) (rid + 1) (trainStep A seedSize ple epoch i rid data s).state
            sh r h)

theorem runBatches_no_viz (A : Autograd P G O) (seedSize ple epoch : Nat) :
    ∀ (batches : List (List Nat)) (i rid : Nat) (s : TrainState P G O),
      (runBatches A seedSize ple epoch i rid batches s).2.2.filter
          Event.isVisualize = [] ∧
      (runBatches A seedSize ple epoch i rid batches s).2.2.filter
          Event.isNoGradGenForward = [] := by
  intro batches
  induction batches with
  | nil => intro i rid s; constructor <;> rfl
  | cons data rest ih =>
      intro i rid s
      have hs := trainStep_no_viz A seedSize ple epoch i rid data s
      have hr := ih (i + 1) (trainStep A seedSize ple epoch i rid data s).rid
        (trainStep A seedSize ple epoch i rid data s).state
      constructor
      · rw [runBatches, List.filter_append, hs.1, hr.1]; rfl
      · rw [runBatches, List.filter_append, hs.2, hr.2]; rfl

theorem runEpochs_sample_rid (A : Autograd P G O) (seedSize ple : Nat)
    (batches : List (List Nat)) (fixed : Option Node) :
    ∀ (n epoch rid : Nat) (s : TrainState P G O) (sh : List Nat) (r : Nat),
      Event.sample (Node.randn sh r) ∈
        (runEpochs A seedSize ple batches fixed n epoch rid s).2.2 →
      rid ≤ r := by
  intro n
  induction n with
  | zero => intro epoch rid s sh r h; simp [runEpochs] at h
  | succ m ih =>
      intro epoch rid s sh r h
      rw [runEpochs.eq_def] at h
      simp only [List.mem_append] at h
      rcases h with (h | h) | h
      · exact runBatches_sample_rid A seedSize ple epoch batches 0 rid s sh r h
      · cases fixed with
        | none => simp at h
        | some f => simp at h
      · have hle := runBatches_rid_le A seedSize ple epoch batches 0 rid s
        exact Nat.le_trans hle
          (ih (epoch + 1) (runBatches A seedSize ple epoch 0 rid batches s).2.1
            (runBatches A seedSize ple epoch 0 rid batches s).1 sh r h)

theorem runEpochs_viz_filter (A : Autograd P G O) (seedSize ple : Nat)
    (batches : List (List Nat)) (f : Node) :
    ∀ (n epoch rid : Nat) (s : TrainState P G O),
      (runEpochs A seedSize ple batches (some f) n epoch rid s).2.2.filter
          Event.isVisualize =
        List.replicate n (Event.visualize (Node.genApp f)) ∧
      (runEpochs A seedSize ple batches (some f) n epoch rid s).2.2.filter
          Event.isNoGradGenForward =
        List.replicate n (Event.noGradGenForward f (Node.genApp f)) := by
  intro n
  induction n with
  | zero => intro epoch rid s; constructor <;> rfl
  | succ m ih =>
      intro epoch rid s
      have hb := runBatches_no_viz A seedSize ple epoch batches 0 rid s
      have hr := ih (epoch + 1) (runBatches A seedSize ple epoch 0 rid batches s).2.1
        (runBatches A seedSize ple epoch 0 rid batches s).1
      constructor <;>
        · rw [runEpochs.eq_def]
          simp only [List.filter_append]
          simp [hb.1, hb.2, hr.1, hr.2, Event.isVisualize,
            Event.isNoGradGenForward, List.replicate_succ]

/-- C5 counterexample: the claim says the fixed visualization latent batch
contains 128 samples, but the source samples
`torch.randn(64, self.seed_size, 1, 1, ...)`: on a run with the default
latent dimensionality 128, one epoch and an empty batch source, the sampled
fixed batch has leading (sample-count) dimension 64, not 128. -/
theorem train_C5_counterexample :
    (train unitAutograd 128 25 unitState (BatchSource.dataLoader []) 1 128
        Device.cuda true).trace =
      [Event.mkOptimizer Net.gen, Event.mkOptimizer Net.dis,
       Event.toDevice Net.dis, Event.toDevice Net.gen,
       Event.sample (Node.randn [64, 128, 1, 1] 0),
       Event.noGradGenForward (Node.randn [64, 128, 1, 1] 0)
         (Node.genApp (Node.randn [64, 128, 1, 1] 0)),
       Event.visualize (Node.genApp (Node.randn [64, 128, 1, 1] 0))] ∧
    (64 : Nat) ≠ 128 :=
  ⟨rfl, by decide⟩

/-- C5 (amended): with visualization enabled, `GAN.train` samples the fixed
latent batch — 64 latent samples of the stored dimensionality, shape
`[64, seedSize, 1, 1]` — exactly once, right after setup and before the
epoch loop (it occurs in the setup prefix and never again), and at the end
of every one of the `numEpochs` epochs that very same batch is run through
the generator without gradient tracking and the result handed to the
plotter. -/
theorem train_C5 (A : Autograd P G O) (seedSize ple : Nat)
    (s : TrainState P G O) (batches : List (List Nat))
    (numEpochs batchSize : Nat) (device : Device) :
    ∃ rest : List Event,
      (train A seedSize ple s (BatchSource.dataLoader batches) numEpochs
          batchSize device true).trace =
        [Event.mkOptimizer Net.gen, Event.mkOptimizer Net.dis,
         Event.toDevice Net.dis, Event.toDevice Net.gen,
         Event.sample (Node.randn [64, seedSize, 1, 1] 0)] ++ rest ∧
      Event.sample (Node.randn [64, seedSize, 1, 1] 0) ∉ rest ∧
      rest.filter Event.isNoGradGenForward =
        List.replicate numEpochs
          (Event.noGradGenForward (Node.randn [64, seedSize, 1, 1] 0)
            (Node.genApp (Node.randn [64, seedSize, 1, 1] 0))) ∧
      rest.filter Event.isVisualize =
        List.replicate numEpochs
          (Event.visualize (Node.genApp (Node.randn [64, seedSize, 1, 1] 0))) := by
  refine ⟨(runEpochs A seedSize ple batches
      (some (Node.randn [64, seedSize, 1, 1] 0)) numEpochs 0 1 s).2.2,
    ?_, ?_, ?_, ?_⟩
  · simp [train]
  · intro hmem
    have h01 := runEpochs_sample_rid A seedSize ple batches
      (some (Node.randn [64, seedSize, 1, 1] 0)) numEpochs 0 1 s
      [64, seedSize, 1, 1] 0 hmem
    omega
  · exact (runEpochs_viz_filter A seedSize ple batches
      (Node.randn [64, seedSize, 1, 1] 0) numEpochs 0 1 s).2
  · exact (runEpochs_viz_filter A seedSize ple batches
      (Node.randn [64, seedSize, 1, 1] 0) numEpochs 0 1 s).1

/-- C5 (amended) witness: the fixed-seed discipline on a concrete two-epoch
run with one batch per epoch and latent dimensionality 128. -/
theorem train_C5_witness :
    ∃ rest : List Event,
      (train unitAutograd 128 25 unitState
          (BatchSource.dataLoader [[4, 3, 8, 8]]) 2 128 Device.cuda true).trace =
        [Event.mkOptimizer Net.gen, Event.mkOptimizer Net.dis,
         Event.toDevice Net.dis, Event.toDevice Net.gen,
         Event.sample (Node.randn [64, 128, 1, 1] 0)] ++ rest ∧
      Event.sample (Node.randn [64, 128, 1, 1] 0) ∉ rest ∧
      rest.filter Event.isNoGradGenForward =
        List.replicate 2
          (Event.noGradGenForward (Node.randn [64, 128, 1, 1] 0)
            (Node.genApp (Node.randn [64, 128, 1, 1] 0))) ∧
      rest.filter Event.isVisualize =
        List.replicate 2
          (Event.visualize (Node.genApp (Node.randn [64, 128, 1, 1] 0))) :=
  train_C5 unitAutograd 128 25 unitState [[4, 3, 8, 8]] 2 128 Device.cuda

/-- C9: the `batch_size` argument of `GAN.train` is informational only — two
runs that differ only in it return identical outcomes, final states and
traces (the per-step sample count is read from each yielded batch). -/
theorem train_C9 (A : Autograd P G O) (seedSize ple : Nat)
    (s : TrainState P G O) (dl : BatchSource) (numEpochs bs1 bs2 : Nat)
    (device : Device) (plot : Bool) :
    train A seedSize ple s dl numEpochs bs1 device plot =
      train A seedSize ple s dl numEpochs bs2 device plot :=
  rfl

end GANime
